import Mathlib

/-!
Shallow embedding of the hookly-worker edit-configuration compiler
(source: src/unnamed/part_001, data model from src/unnamed/part_003).
Machine numbers are embedded as exact rationals, frame counts as integers.
-/

namespace Hookly

/-- Character constant, the backslash. -/
def bsChar : Char := Char.ofNat 92

/-- Character constant, the single quote. -/
def qtChar : Char := Char.ofNat 39

/-- String consisting of a single quote, used when assembling filter bodies. -/
def sq : String := String.singleton qtChar

/-- Wrap a string in single quotes, as the filter mini-language requires. -/
def quoted (s : String) : String := sq ++ s ++ sq

/-! Data model, from src/unnamed/part_003. -/

/-- TransitionType from types: cut, crossfade, push-up, zoom-cut. -/
inductive TransitionType where
  | cut
  | crossfade
  | pushUp
  | zoomCut
deriving DecidableEq

/-- Transition: a type and a duration in milliseconds. -/
structure Transition where
  type : TransitionType
  duration : ℚ

/-- EffectType from types: none, zoom-in, punch-zoom, vertical-pan, center-crop. -/
inductive EffectType where
  | none
  | zoomIn
  | punchZoom
  | verticalPan
  | centerCrop
deriving DecidableEq

/-- Effect intensity: subtle, medium, strong. -/
inductive Intensity where
  | subtle
  | medium
  | strong
deriving DecidableEq

/-- HookEffect / DemoEffect: a type and an intensity. -/
structure Effect where
  type : EffectType
  intensity : Intensity

/-- HookTrim / DemoTrim: start time, end time, useFullVideo flag. -/
structure Trim where
  startTime : ℚ
  endTime : ℚ
  useFullVideo : Bool

/-- FontSize: small, medium, large. -/
inductive FontSize where
  | small
  | medium
  | large
deriving DecidableEq

/-- Font weight: normal or bold (the optional fontWeight field). -/
inductive FontWeight where
  | normal
  | bold
deriving DecidableEq

/-- TextStyle: required fontSize and color, optional fontWeight. -/
structure TextStyle where
  fontSize : FontSize
  color : String
  fontWeight : Option FontWeight

/-- Text position given as percentages of the frame. -/
structure TextPosition where
  x : ℚ
  y : ℚ

/-- AudioSource policy: hook, demo, both, none. -/
inductive AudioSource where
  | hook
  | demo
  | both
  | none
deriving DecidableEq

/-- JobConfig: every field optional, matching the TypeScript interface. -/
structure JobConfig where
  hookTrim : Option Trim
  demoTrim : Option Trim
  transition : Option Transition
  hookEffect : Option Effect
  demoEffect : Option Effect
  textStyle : Option TextStyle
  textPosition : Option TextPosition
  audioSource : Option AudioSource

/-! Numeric helpers mirroring the JavaScript operations used by the source. -/

/-- JavaScript Math.round: round half toward positive infinity. -/
def jsRound (q : ℚ) : ℤ := ⌊q + 1 / 2⌋

/-- getIntensityMultiplier from the source: subtle 0.5, medium 1.0, strong 1.5. -/
def getIntensityMultiplier (i : Intensity) : ℚ :=
  match i with
  | .subtle => 0.5
  | .medium => 1.0
  | .strong => 1.5

/-- getFontSizePixels from the source: small 48, medium 72, large 96. -/
def getFontSizePixels (f : FontSize) : ℤ :=
  match f with
  | .small => 48
  | .medium => 72
  | .large => 96

/-- The frame count actually used by buildEffectFilter:
the line `const d = Math.max(durationFrames, 30)`. -/
def effectFrameCount (durationFrames : ℤ) : ℤ := max durationFrames 30

/-- Punch-zoom target zoom `1 + 0.2 * intensity` (buildEffectFilter, punch-zoom case). -/
def punchZoomTarget (i : Intensity) : ℚ := 1 + 0.2 * getIntensityMultiplier i

/-- Punch-zoom junction frame `Math.floor(d * 0.2)`. -/
def punchFrames (d : ℤ) : ℤ := ⌊(d : ℚ) * 0.2⌋

/-- Punch-zoom per-frame increment `(punchZoom - 1) / punchFrames`. -/
def punchIncrement (i : Intensity) (d : ℤ) : ℚ :=
  (punchZoomTarget i - 1) / ((punchFrames d : ℤ) : ℚ)

/-- The linear ramp piece `1 + on * increment` of the punch-zoom z expression. -/
def punchRamp (i : Intensity) (d : ℤ) (onIdx : ℤ) : ℚ :=
  1 + (onIdx : ℚ) * punchIncrement i d

/-- Value of the emitted punch-zoom z expression
`if(lt(on,punchFrames), 1 + on*increment, punchZoom)` at frame index `onIdx`. -/
def punchZoomExpr (i : Intensity) (d : ℤ) (onIdx : ℤ) : ℚ :=
  if onIdx < punchFrames d then punchRamp i d onIdx else punchZoomTarget i

/-- buildEffectFilter from the source: emits one filter-chain fragment per effect
kind, or the empty string for kind none. -/
def buildEffectFilter (effect : Effect) (durationFrames : ℤ) : String :=
  let intensity := getIntensityMultiplier effect.intensity
  let d := effectFrameCount durationFrames
  match effect.type with
  | .zoomIn =>
      let zoomEnd : ℚ := 1 + 0.15 * intensity
      let zoomIncrement : ℚ := (zoomEnd - 1) / (d : ℚ)
      "zoompan=z=" ++ quoted ("min(1+on*" ++ toString zoomIncrement ++ "," ++ toString zoomEnd ++ ")")
        ++ ":x=" ++ quoted "iw/2-(iw/zoom/2)" ++ ":y=" ++ quoted "ih/2-(ih/zoom/2)"
        ++ ":d=" ++ toString d ++ ":s=1080x1920:fps=30"
  | .punchZoom =>
      "zoompan=z=" ++ quoted ("if(lt(on," ++ toString (punchFrames d) ++ "),1+on*"
          ++ toString (punchIncrement effect.intensity d) ++ ","
          ++ toString (punchZoomTarget effect.intensity) ++ ")")
        ++ ":x=" ++ quoted "iw/2-(iw/zoom/2)" ++ ":y=" ++ quoted "ih/2-(ih/zoom/2)"
        ++ ":d=" ++ toString d ++ ":s=1080x1920:fps=30"
  | .verticalPan =>
      let panZoom : ℚ := 1.1
      let panAmount : ℤ := ⌊(1920 : ℚ) * 0.05 * intensity⌋
      "zoompan=z=" ++ quoted (toString panZoom) ++ ":x=" ++ quoted "iw/2-(iw/zoom/2)"
        ++ ":y=" ++ quoted ("ih/2-(ih/zoom/2)-" ++ toString panAmount ++ "+on*"
          ++ toString (((panAmount * 2 : ℤ) : ℚ) / (d : ℚ)))
        ++ ":d=" ++ toString d ++ ":s=1080x1920:fps=30"
  | .centerCrop =>
      let cropZoom : ℚ := 1 + 0.1 * intensity
      "scale=" ++ toString (jsRound (1080 * cropZoom)) ++ ":" ++ toString (jsRound (1920 * cropZoom))
        ++ ",crop=1080:1920:(iw-1080)/2:(ih-1920)/2"
  | .none => ""

/-- Legacy alias buildHookEffectFilter. -/
def buildHookEffectFilter (effect : Effect) (durationFrames : ℤ) : String :=
  buildEffectFilter effect durationFrames

/-- Transition offset `Math.max(0, hookDuration - durationSec)` from
buildTransitionFilter. -/
def transitionOffset (t : Transition) (hookDuration : ℚ) : ℚ :=
  max 0 (hookDuration - t.duration / 1000)

/-- buildTransitionFilter from the source: xfade fragment for crossfade, push-up
and zoom-cut, empty string for cut. -/
def buildTransitionFilter (t : Transition) (hookDuration : ℚ) : String :=
  let durationSec : ℚ := t.duration / 1000
  let offset : ℚ := transitionOffset t hookDuration
  match t.type with
  | .crossfade =>
      "xfade=transition=fade:duration=" ++ toString durationSec ++ ":offset=" ++ toString offset
  | .pushUp =>
      "xfade=transition=slideup:duration=" ++ toString durationSec ++ ":offset=" ++ toString offset
  | .zoomCut =>
      "xfade=transition=zoomin:duration=" ++ toString (min durationSec 0.3) ++ ":offset=" ++ toString offset
  | .cut => ""

/-! Timing resolver, from buildFFmpegArgs lines 187 to 209. -/

/-- Whether the hook trim branch is taken:
the condition `config?.hookTrim && !config.hookTrim.useFullVideo`. -/
def hookTrimActive (cfg : Option JobConfig) : Bool :=
  match cfg.bind (·.hookTrim) with
  | some t => !t.useFullVideo
  | none => false

/-- Whether the demo trim branch is taken. -/
def demoTrimActive (cfg : Option JobConfig) : Bool :=
  match cfg.bind (·.demoTrim) with
  | some t => !t.useFullVideo
  | none => false

/-- Resolved hook start offset from buildFFmpegArgs. -/
def hookStartTime (cfg : Option JobConfig) : ℚ :=
  match cfg.bind (·.hookTrim) with
  | some t => if t.useFullVideo then 0 else t.startTime
  | none => 0

/-- Resolved hook duration from buildFFmpegArgs. -/
def hookDuration (cfg : Option JobConfig) (introDuration : ℚ) : ℚ :=
  match cfg.bind (·.hookTrim) with
  | some t => if t.useFullVideo then introDuration else t.endTime - t.startTime
  | none => introDuration

/-- Resolved demo start offset from buildFFmpegArgs. -/
def demoStartTime (cfg : Option JobConfig) : ℚ :=
  match cfg.bind (·.demoTrim) with
  | some t => if t.useFullVideo then 0 else t.startTime
  | none => 0

/-- Resolved demo duration from buildFFmpegArgs. -/
def demoDuration (cfg : Option JobConfig) (mainDuration : ℚ) : ℚ :=
  match cfg.bind (·.demoTrim) with
  | some t => if t.useFullVideo then mainDuration else t.endTime - t.startTime
  | none => mainDuration

/-- Hook frame count `Math.floor(hookDuration * 30)`. -/
def hookFrames (cfg : Option JobConfig) (introDuration : ℚ) : ℤ :=
  ⌊hookDuration cfg introDuration * 30⌋

/-- Demo frame count `Math.floor(demoDuration * 30)`. -/
def demoFrames (cfg : Option JobConfig) (mainDuration : ℚ) : ℤ :=
  ⌊demoDuration cfg mainDuration * 30⌋

/-- Effective audio policy: the expression `config?.audioSource || "hook"`. -/
def effectiveAudioSource (cfg : Option JobConfig) : AudioSource :=
  (cfg.bind (·.audioSource)).getD .hook

/-- includeAudio: the policy is not none. -/
def includeAudio (a : AudioSource) : Bool :=
  match a with
  | .none => false
  | _ => true

/-- needHookAudio: policy hook or both. -/
def needHookAudio (a : AudioSource) : Bool :=
  match a with
  | .hook | .both => true
  | _ => false

/-- needDemoAudio: policy demo or both. -/
def needDemoAudio (a : AudioSource) : Bool :=
  match a with
  | .demo | .both => true
  | _ => false

/-! Text escaping, from buildFFmpegArgs lines 252 to 257. -/

/-- One global single-character regex replace: every occurrence of `c` becomes
the fixed replacement list `r`; replacements are not rescanned within the pass. -/
def replaceChar (c : Char) (r : List Char) : List Char → List Char
  | [] => []
  | x :: xs => (if x = c then r else [x]) ++ replaceChar c r xs

/-- The successive replaces applied to the hook text, in source order:
backslash, single quote, colon, open bracket, close bracket. -/
def escapeFilterText (s : List Char) : List Char :=
  replaceChar ']' [bsChar, ']']
    (replaceChar '[' [bsChar, '[']
      (replaceChar ':' [bsChar, ':']
        (replaceChar qtChar [qtChar, bsChar, qtChar, qtChar]
          (replaceChar bsChar [bsChar, bsChar] s))))

/-- The escaped overlay text as a string. -/
def escapedText (s : String) : String := String.mk (escapeFilterText s.data)

/-- Modelled from the spec: the simultaneous one-pass character substitution the
escaping is claimed to implement - each metacharacter maps to its escaped form
independently of the others. -/
def escapeCharSpec (x : Char) : List Char :=
  if x = bsChar then [bsChar, bsChar]
  else if x = qtChar then [qtChar, bsChar, qtChar, qtChar]
  else if x = ':' then [bsChar, ':']
  else if x = '[' then [bsChar, '[']
  else if x = ']' then [bsChar, ']']
  else [x]

/-! Fragment assembly, from buildFFmpegArgs lines 218 to 412. Each entry the
source pushes onto filterParts is a bracketed input pad list, a filter body and
a bracketed output pad list; we keep the three parts separate so the pad
structure of the program is explicit, and render them back to the exact string. -/

/-- One filter-chain statement: input pads, body, output pads. -/
structure Frag where
  ins : List String
  body : String
  outs : List String
deriving DecidableEq

/-- Render a fragment to the string the source builds. -/
def renderFrag (f : Frag) : String :=
  String.join (f.ins.map fun p => "[" ++ p ++ "]") ++ f.body
    ++ String.join (f.outs.map fun p => "[" ++ p ++ "]")

/-- Resolved font size in pixels: `config?.textStyle?.fontSize ? ... : 72`. -/
def resolvedFontSize (cfg : Option JobConfig) : ℤ :=
  match cfg.bind (·.textStyle) with
  | some ts => getFontSizePixels ts.fontSize
  | none => 72

/-- Resolved font color: `config?.textStyle?.color || "white"` - the JavaScript
or-operator also replaces an empty color string by white. -/
def resolvedFontColor (cfg : Option JobConfig) : String :=
  match cfg.bind (·.textStyle) with
  | some ts => if ts.color = "" then "white" else ts.color
  | none => "white"

/-- Resolved font weight: `config?.textStyle?.fontWeight || "normal"`. -/
def resolvedFontWeight (cfg : Option JobConfig) : FontWeight :=
  ((cfg.bind (·.textStyle)).bind (·.fontWeight)).getD .normal

/-- Horizontal drawtext position expression. -/
def textXExpr (cfg : Option JobConfig) : String :=
  match cfg.bind (·.textPosition) with
  | some p => "(w*" ++ toString p.x ++ "/100)-(text_w/2)"
  | none => "(w-text_w)/2"

/-- Vertical drawtext position expression. -/
def textYExpr (cfg : Option JobConfig) : String :=
  match cfg.bind (·.textPosition) with
  | some p => "(h*" ++ toString p.y ++ "/100)-(text_h/2)"
  | none => "(h-text_h)/2"

/-- The drawtext chain appended to the intro filter when hook text is present. -/
def drawtextPart (cfg : Option JobConfig) (escaped : String) (hd : ℚ) : String :=
  ",drawtext=text=" ++ quoted escaped
    ++ ":fontsize=" ++ toString (resolvedFontSize cfg)
    ++ ":fontcolor=" ++ resolvedFontColor cfg
    ++ ":x=" ++ textXExpr cfg
    ++ ":y=" ++ textYExpr cfg
    ++ ":borderw=3"
    ++ ":bordercolor=black"
    ++ ":shadowcolor=black@0.6"
    ++ ":shadowx=4"
    ++ ":shadowy=4"
    ++ ":enable=" ++ quoted ("between(t,0," ++ toString hd ++ ")")
    ++ (if resolvedFontWeight cfg = .bold then ":font=DejaVu Sans Bold" else "")

/-- Body of the intro video chain (lines 230 to 285, without the pads). -/
def introFilterBody (cfg : Option JobConfig) (hookText : Option String)
    (introDuration : ℚ) : String :=
  (match cfg.bind (·.hookTrim) with
    | some t =>
        if !t.useFullVideo then
          "trim=start=" ++ toString (hookStartTime cfg) ++ ":end=" ++ toString t.endTime
            ++ ",setpts=PTS-STARTPTS,"
        else ""
    | none => "")
  ++ "scale=1080:1920:force_original_aspect_ratio=decrease,"
  ++ "pad=1080:1920:(ow-iw)/2:(oh-ih)/2:black,"
  ++ "setsar=1,fps=30"
  ++ (match cfg.bind (·.hookEffect) with
    | some e =>
        if e.type ≠ .none then
          let ef := buildHookEffectFilter e (hookFrames cfg introDuration)
          if ef ≠ "" then "," ++ ef else ""
        else ""
    | none => "")
  ++ (match hookText with
    | some s =>
        if s ≠ "" then
          drawtextPart cfg (escapedText s) (hookDuration cfg introDuration)
        else ""
    | none => "")

/-- The intro video fragment: consumes the first input video stream, declares v0. -/
def introFilter (cfg : Option JobConfig) (hookText : Option String)
    (introDuration : ℚ) : Frag :=
  ⟨["0:v"], introFilterBody cfg hookText introDuration, ["v0"]⟩

/-- Body of the main video chain (lines 289 to 308, without the pads). -/
def mainFilterBody (cfg : Option JobConfig) (mainDuration : ℚ) : String :=
  (match cfg.bind (·.demoTrim) with
    | some t =>
        if !t.useFullVideo then
          "trim=start=" ++ toString (demoStartTime cfg) ++ ":end=" ++ toString t.endTime
            ++ ",setpts=PTS-STARTPTS,"
        else ""
    | none => "")
  ++ "scale=1080:1920:force_original_aspect_ratio=decrease,"
  ++ "pad=1080:1920:(ow-iw)/2:(oh-ih)/2:black,"
  ++ "setsar=1,fps=30"
  ++ (match cfg.bind (·.demoEffect) with
    | some e =>
        if e.type ≠ .none then
          let ef := buildEffectFilter e (demoFrames cfg mainDuration)
          if ef ≠ "" then "," ++ ef else ""
        else ""
    | none => "")

/-- The main video fragment: consumes the second input video stream, declares v1. -/
def mainFilter (cfg : Option JobConfig) (mainDuration : ℚ) : Frag :=
  ⟨["1:v"], mainFilterBody cfg mainDuration, ["v1"]⟩

/-- Hook audio fragment (lines 318 to 332): a trim or anull of the input stream
when the clip has audio, otherwise synthesized silence; declares a0. -/
def hookAudioFilter (cfg : Option JobConfig) (introDuration : ℚ)
    (introHasAudio : Bool) : Frag :=
  if introHasAudio then
    ⟨["0:a"],
      (match cfg.bind (·.hookTrim) with
        | some t =>
            if !t.useFullVideo then
              "atrim=start=" ++ toString (hookStartTime cfg) ++ ":end=" ++ toString t.endTime
                ++ ",asetpts=PTS-STARTPTS"
            else "anull"
        | none => "anull"),
      ["a0"]⟩
  else
    ⟨[], "anullsrc=channel_layout=stereo:sample_rate=44100:duration="
      ++ toString (hookDuration cfg introDuration), ["a0"]⟩

/-- Demo audio fragment (lines 335 to 349); declares a1. -/
def demoAudioFilter (cfg : Option JobConfig) (mainDuration : ℚ)
    (mainHasAudio : Bool) : Frag :=
  if mainHasAudio then
    ⟨["1:a"],
      (match cfg.bind (·.demoTrim) with
        | some t =>
            if !t.useFullVideo then
              "atrim=start=" ++ toString (demoStartTime cfg) ++ ":end=" ++ toString t.endTime
                ++ ",asetpts=PTS-STARTPTS"
            else "anull"
        | none => "anull"),
      ["a1"]⟩
  else
    ⟨[], "anullsrc=channel_layout=stereo:sample_rate=44100:duration="
      ++ toString (demoDuration cfg mainDuration), ["a1"]⟩

/-- The audio chain fragments actually emitted (lines 313 to 350). -/
def audioFilters (cfg : Option JobConfig) (introDuration mainDuration : ℚ)
    (introHasAudio mainHasAudio : Bool) : List Frag :=
  if includeAudio (effectiveAudioSource cfg) then
    (if needHookAudio (effectiveAudioSource cfg) then
      [hookAudioFilter cfg introDuration introHasAudio] else [])
    ++ (if needDemoAudio (effectiveAudioSource cfg) then
      [demoAudioFilter cfg mainDuration mainHasAudio] else [])
  else []

/-- Body of the combine-video fragment (lines 353 to 364): an xfade when a real
transition is configured and produces a fragment, otherwise a hard concat. -/
def combineVideoBody (cfg : Option JobConfig) (introDuration : ℚ) : String :=
  match cfg.bind (·.transition) with
  | some t =>
      if t.type ≠ .cut ∧ t.duration > 0 then
        let tf := buildTransitionFilter t (hookDuration cfg introDuration)
        if tf ≠ "" then tf else "concat=n=2:v=1:a=0"
      else "concat=n=2:v=1:a=0"
  | none => "concat=n=2:v=1:a=0"

/-- The combine-video fragment: consumes v0 and v1, declares outv. -/
def combineVideoFilter (cfg : Option JobConfig) (introDuration : ℚ) : Frag :=
  ⟨["v0", "v1"], combineVideoBody cfg introDuration, ["outv"]⟩

/-- The combine-audio fragments (lines 366 to 383), keyed by the policy:
hook pads a0 with trailing silence to the full timeline, demo delays a1 by the
hook duration, both concatenates a0 then a1; policy none emits nothing. -/
def combineAudioFilters (cfg : Option JobConfig) (hd dd : ℚ) : List Frag :=
  match effectiveAudioSource cfg with
  | .hook => [⟨["a0"], "apad=whole_dur=" ++ toString (hd + dd), ["outa"]⟩]
  | .demo => [⟨["a1"], "adelay=" ++ toString (jsRound (hd * 1000)) ++ "|"
      ++ toString (jsRound (hd * 1000)), ["outa"]⟩]
  | .both => [⟨["a0", "a1"], "concat=n=2:v=0:a=1", ["outa"]⟩]
  | .none => []

/-- The fragments preceding the combine stage, in emission order. -/
def preFilters (cfg : Option JobConfig) (hookText : Option String)
    (introDuration mainDuration : ℚ) (introHasAudio mainHasAudio : Bool) : List Frag :=
  [introFilter cfg hookText introDuration, mainFilter cfg mainDuration]
    ++ audioFilters cfg introDuration mainDuration introHasAudio mainHasAudio

/-- The full ordered fragment list of the assembled filter-graph program. -/
def filterParts (cfg : Option JobConfig) (hookText : Option String)
    (introDuration mainDuration : ℚ) (introHasAudio mainHasAudio : Bool) : List Frag :=
  preFilters cfg hookText introDuration mainDuration introHasAudio mainHasAudio
    ++ [combineVideoFilter cfg introDuration]
    ++ combineAudioFilters cfg (hookDuration cfg introDuration) (demoDuration cfg mainDuration)

/-- The pad names the final program maps to the output file. -/
def outputMapPads (cfg : Option JobConfig) : List String :=
  ["outv"] ++ (if includeAudio (effectiveAudioSource cfg) then ["outa"] else [])

/-- The filter_complex value: fragments joined by semicolons. -/
def filterComplex (cfg : Option JobConfig) (hookText : Option String)
    (introDuration mainDuration : ℚ) (introHasAudio mainHasAudio : Bool) : String :=
  String.intercalate ";"
    ((filterParts cfg hookText introDuration mainDuration introHasAudio mainHasAudio).map renderFrag)

/-- buildFFmpegArgs from the source: the complete argument vector handed to the
engine, with the probed durations and audio-presence flags as inputs. -/
def buildFFmpegArgs (introPath mainPath outputPath : String)
    (hookText : Option String) (cfg : Option JobConfig)
    (introDuration mainDuration : ℚ) (introHasAudio mainHasAudio : Bool) : List String :=
  ["-y", "-i", introPath, "-i", mainPath, "-filter_complex",
    filterComplex cfg hookText introDuration mainDuration introHasAudio mainHasAudio,
    "-map", "[outv]"]
  ++ (if includeAudio (effectiveAudioSource cfg) then ["-map", "[outa]"] else [])
  ++ ["-c:v", "libx264", "-preset", "slow", "-crf", "20", "-profile:v", "high",
      "-level", "4.0", "-pix_fmt", "yuv420p", "-movflags", "+faststart"]
  ++ (if includeAudio (effectiveAudioSource cfg) then ["-c:a", "aac", "-b:a", "128k"] else [])
  ++ [outputPath]

/-! Pad bookkeeping predicates over the assembled program. -/

/-- All pads declared as outputs by a fragment list, in order. -/
def declaredOuts (fs : List Frag) : List String :=
  (fs.map (·.outs)).flatten

/-- All pads referenced as inputs by a fragment list. -/
def referencedIns (fs : List Frag) : List String :=
  (fs.map (·.ins)).flatten

/-- Boolean no-duplicates check on a list of strings. -/
def nodupB : List String → Bool
  | [] => true
  | x :: xs => !(xs.contains x) && nodupB xs

/-- The internal pad namespace named by the well-formedness claim. -/
def internalPads : List String := ["v0", "v1", "a0", "a1", "outv", "outa"]

/-- The pads of the two input streams, declared by the -i inputs rather than by
fragments. -/
def inputStreamPads : List String := ["0:v", "1:v", "0:a", "1:a"]

/-- Combine-stage well-formedness: every pad consumed by the combine-video
fragment is declared exactly once among the earlier fragments, every pad
consumed by a combine-audio fragment is declared exactly once among the
fragments before it, every output-map pad is declared exactly once in the whole
program, and no pad is declared twice. -/
def padsOk (pre : List Frag) (cv : Frag) (ca : List Frag) (maps : List String) : Bool :=
  cv.ins.all (fun p => (declaredOuts pre).count p = 1)
  && ca.all (fun f => f.ins.all (fun p => (declaredOuts (pre ++ [cv])).count p = 1))
  && maps.all (fun p => (declaredOuts (pre ++ [cv] ++ ca)).count p = 1)
  && nodupB (declaredOuts (pre ++ [cv] ++ ca))

/-- Modelled from the spec: the defensive graph check the spec attributes to the
assembler (no such check exists in the source). A program fails the check when
some declared pad is never used (consumed by a later fragment or mapped to the
output) or some referenced pad was never declared (neither an input stream nor
a fragment output). -/
def specGraphCheck (fs : List Frag) (maps : List String) : Bool :=
  (declaredOuts fs).all (fun p => (referencedIns fs ++ maps).contains p)
  && (referencedIns fs).all (fun p => (inputStreamPads ++ declaredOuts fs).contains p)

/-- Compilation errors named by the spec; the source defines neither and its
compilation path cannot fail. -/
inductive CompileError where
  | invalidTrim
  | graphAssembly
deriving DecidableEq

/-- The compilation step as an Except value. The source buildFFmpegArgs has no
failure branch, so the result is always ok; the error type records the failure
modes the spec claims so that their absence is expressible. -/
def compileJob (introPath mainPath outputPath : String)
    (hookText : Option String) (cfg : Option JobConfig)
    (introDuration mainDuration : ℚ) (introHasAudio mainHasAudio : Bool) :
    Except CompileError (List String) :=
  .ok (buildFFmpegArgs introPath mainPath outputPath hookText cfg
    introDuration mainDuration introHasAudio mainHasAudio)

/-- Modelled from the spec: a graph assembler that performs the defensive
invariant check before returning the program, failing with the
graph-assembly error on a malformed program. The source performs no such
check; this definition exists to be compared with the source assembler. -/
def checkedAssemble (cfg : Option JobConfig) (hookText : Option String)
    (introDuration mainDuration : ℚ) (introHasAudio mainHasAudio : Bool) :
    Except CompileError (List Frag) :=
  let fs := filterParts cfg hookText introDuration mainDuration introHasAudio mainHasAudio
  if specGraphCheck fs (outputMapPads cfg) then .ok fs else .error .graphAssembly

/-- Setting the audio policy explicitly to hook, leaving the rest of the
configuration unchanged; used to compare the defaulted behavior with the
explicit one. -/
def setAudioSourceHook (cfg : Option JobConfig) : Option JobConfig :=
  match cfg with
  | none => some ⟨none, none, none, none, none, none, none, some .hook⟩
  | some c => some { c with audioSource := some .hook }

/-- A configuration whose active hook trim window is inverted: start 5, end 3,
so the resolved duration is negative. -/
def invalidTrimConfig : Option JobConfig :=
  some ⟨some ⟨5, 3, false⟩, none, none, none, none, none, none, none⟩

/-- A configuration whose only trim is an inverted active demo trim: start 5,
end 3, so the resolved demo duration is negative. -/
def invalidDemoTrimConfig : Option JobConfig :=
  some ⟨none, some ⟨5, 3, false⟩, none, none, none, none, none, none⟩

/-- A configuration with an active hook trim from 2 to 7 and a demo trim marked
useFullVideo. -/
def timingConfig : Option JobConfig :=
  some ⟨some ⟨2, 7, false⟩, some ⟨1, 4, true⟩, none, none, none, none, none, none⟩

/-- A configuration whose audio policy is explicitly hook. -/
def hookPolicyConfig : Option JobConfig :=
  some ⟨none, none, none, none, none, none, none, some .hook⟩

/-- A crossfade transition of 2000 milliseconds, longer than a one second hook. -/
def witTransition : Transition := ⟨.crossfade, 2000⟩

/-! Helper lemmas. -/

/-- Appending anything to a string with nonempty character data is nonempty. -/
theorem append_ne_empty (a b : String) (h : a.data ≠ []) : a ++ b ≠ "" := by
  intro hab
  apply h
  have hd : (a ++ b).data = [] := by rw [hab]
  rw [String.data_append] at hd
  exact (List.append_eq_nil.mp hd).1

/-- Character data of an append is nonempty when the left part is. -/
theorem data_ne_nil_append (a b : String) (h : a.data ≠ []) : (a ++ b).data ≠ [] := by
  rw [String.data_append]
  intro hc
  exact h (List.append_eq_nil.mp hc).1

set_option maxHeartbeats 2000000 in
/-- Both pad invariants hold for every assembled program: the dedicated
combine-stage bookkeeping check and the spec-described declared-used and
referenced-declared check. The pad skeleton of the program depends only on the
effective audio policy and the two audio-presence flags, so the proof is a
finite case analysis. -/
theorem graphInvariants (cfg : Option JobConfig) (text : Option String)
    (idur mdur : ℚ) (ihs mhs : Bool) :
    padsOk (preFilters cfg text idur mdur ihs mhs) (combineVideoFilter cfg idur)
      (combineAudioFilters cfg (hookDuration cfg idur) (demoDuration cfg mdur))
      (outputMapPads cfg) = true ∧
    specGraphCheck (filterParts cfg text idur mdur ihs mhs) (outputMapPads cfg) = true := by
  rcases cfg with _ | ⟨ht, dt, tr, he, de, ts, tp, as⟩
  · cases ihs <;> cases mhs <;> exact ⟨rfl, rfl⟩
  · rcases as with _ | a
    · cases ihs <;> cases mhs <;> exact ⟨rfl, rfl⟩
    · cases a <;> cases ihs <;> cases mhs <;> exact ⟨rfl, rfl⟩

/-- The punch-zoom junction frame is at least 6 for every clamped frame count. -/
theorem punchFrames_pos (df : ℤ) : 6 ≤ punchFrames (effectFrameCount df) := by
  unfold punchFrames
  apply Int.le_floor.mpr
  have h30 : (30 : ℤ) ≤ effectFrameCount df := le_max_right _ _
  have : (30 : ℚ) ≤ ((effectFrameCount df : ℤ) : ℚ) := by exact_mod_cast h30
  rw [show (0.2 : ℚ) = 1 / 5 by norm_num]
  push_cast
  linarith

/-- A single-character global replace distributes over list append. -/
theorem replaceChar_append (c : Char) (r : List Char) (a b : List Char) :
    replaceChar c r (a ++ b) = replaceChar c r a ++ replaceChar c r b := by
  induction a with
  | nil => rfl
  | cons x xs ih => simp [replaceChar, ih]

/-- The full escape chain distributes over list append. -/
theorem escapeFilterText_append (a b : List Char) :
    escapeFilterText (a ++ b) = escapeFilterText a ++ escapeFilterText b := by
  unfold escapeFilterText
  simp [replaceChar_append]

/-- On a single character the sequential escape chain agrees with the
simultaneous substitution: no later pass touches the output of an earlier one. -/
theorem escapeFilterText_single (x : Char) :
    escapeFilterText [x] = escapeCharSpec x := by
  by_cases h1 : x = bsChar
  · subst h1; rfl
  by_cases h2 : x = qtChar
  · subst h2; rfl
  by_cases h3 : x = ':'
  · subst h3; rfl
  by_cases h4 : x = '['
  · subst h4; rfl
  by_cases h5 : x = ']'
  · subst h5; rfl
  simp [escapeFilterText, replaceChar, escapeCharSpec, h1, h2, h3, h4, h5]

/-! Claim theorems. -/

/-- C1: for every job configuration (all four audio policies, any effect
assignment, any transition kind), every pad name referenced by a combine-stage
fragment or by an output map of the assembled program is declared as the output
of exactly one earlier fragment, and no pad is declared twice. -/
theorem pad_wellformedness (cfg : Option JobConfig) (text : Option String)
    (idur mdur : ℚ) (ihs mhs : Bool) :
    filterParts cfg text idur mdur ihs mhs
      = preFilters cfg text idur mdur ihs mhs ++ [combineVideoFilter cfg idur]
        ++ combineAudioFilters cfg (hookDuration cfg idur) (demoDuration cfg mdur) ∧
    padsOk (preFilters cfg text idur mdur ihs mhs) (combineVideoFilter cfg idur)
      (combineAudioFilters cfg (hookDuration cfg idur) (demoDuration cfg mdur))
      (outputMapPads cfg) = true :=
  ⟨rfl, (graphInvariants cfg text idur mdur ihs mhs).1⟩

/-- C2 counterexample: a configuration with an active hook trim whose resolved
duration is negative, and likewise one whose only active trim is an inverted
demo trim, both compile to an ordinary argument vector; no invalid-trim error
is produced in either case. -/
theorem invalidTrim_not_raised :
    hookTrimActive invalidTrimConfig = true ∧
    hookDuration invalidTrimConfig 10 ≤ 0 ∧
    compileJob "in1" "in2" "out" Option.none invalidTrimConfig 10 8 true true
      ≠ Except.error CompileError.invalidTrim ∧
    (compileJob "in1" "in2" "out" Option.none invalidTrimConfig 10 8 true true).isOk
      = true ∧
    demoTrimActive invalidDemoTrimConfig = true ∧
    demoDuration invalidDemoTrimConfig 8 ≤ 0 ∧
    compileJob "in1" "in2" "out" Option.none invalidDemoTrimConfig 10 8 true true
      ≠ Except.error CompileError.invalidTrim ∧
    (compileJob "in1" "in2" "out" Option.none invalidDemoTrimConfig 10 8 true true).isOk
      = true := by
  refine ⟨rfl, ?_, ?_, rfl, rfl, ?_, ?_, rfl⟩
  · show (3 : ℚ) - 5 ≤ 0
    norm_num
  · intro h
    exact Except.noConfusion h
  · show (3 : ℚ) - 5 ≤ 0
    norm_num
  · intro h
    exact Except.noConfusion h

/-- C2 amended: when an active trim, on the hook or on the demo side, resolves
to a non-positive duration, compilation does not fail; the argument vector is
still produced and every active trim resolves to endTime minus startTime,
used as-is. -/
theorem trim_nonpositive_compiles (p1 p2 p3 : String) (text : Option String)
    (cfg : Option JobConfig) (idur mdur : ℚ) (ihs mhs : Bool)
    (hbad : (hookTrimActive cfg = true ∧ hookDuration cfg idur ≤ 0)
      ∨ (demoTrimActive cfg = true ∧ demoDuration cfg mdur ≤ 0)) :
    (compileJob p1 p2 p3 text cfg idur mdur ihs mhs).isOk = true ∧
    (∀ t, cfg.bind (·.hookTrim) = some t → t.useFullVideo = false →
      hookDuration cfg idur = t.endTime - t.startTime) ∧
    (∀ t, cfg.bind (·.demoTrim) = some t → t.useFullVideo = false →
      demoDuration cfg mdur = t.endTime - t.startTime) := by
  refine ⟨rfl, ?_, ?_⟩
  · intro t ht hf
    simp [hookDuration, ht, hf]
  · intro t ht hf
    simp [demoDuration, ht, hf]

/-- C2 witness: both inverted-trim configurations, hook side and demo side,
satisfy the hypothesis and still compile with the trim resolved to endTime
minus startTime. -/
theorem trim_nonpositive_compiles_witness :
    (compileJob "w1" "w2" "w3" Option.none invalidTrimConfig 10 8 true true).isOk = true ∧
    hookDuration invalidTrimConfig 10 = 3 - 5 ∧
    (compileJob "w1" "w2" "w3" Option.none invalidDemoTrimConfig 10 8 true true).isOk = true ∧
    demoDuration invalidDemoTrimConfig 8 = 3 - 5 := by
  have h1 := trim_nonpositive_compiles "w1" "w2" "w3" Option.none invalidTrimConfig 10 8
    true true (Or.inl ⟨rfl, by show (3 : ℚ) - 5 ≤ 0; norm_num⟩)
  have h2 := trim_nonpositive_compiles "w1" "w2" "w3" Option.none invalidDemoTrimConfig 10 8
    true true (Or.inr ⟨rfl, by show (3 : ℚ) - 5 ≤ 0; norm_num⟩)
  exact ⟨h1.1, h1.2.1 _ rfl rfl, h2.1, h2.2.2 _ rfl rfl⟩

/-- C3: the resolved hook duration is endTime minus startTime when a hook trim
is present with useFullVideo false (start offset startTime), and the probed
duration otherwise (start offset 0); symmetrically for the demo side. -/
theorem timing_resolution (cfg : Option JobConfig) (idur mdur : ℚ) :
    (∀ t, cfg.bind (·.hookTrim) = some t →
      (t.useFullVideo = false →
        hookStartTime cfg = t.startTime ∧ hookDuration cfg idur = t.endTime - t.startTime) ∧
      (t.useFullVideo = true → hookStartTime cfg = 0 ∧ hookDuration cfg idur = idur)) ∧
    (cfg.bind (·.hookTrim) = none → hookStartTime cfg = 0 ∧ hookDuration cfg idur = idur) ∧
    (∀ t, cfg.bind (·.demoTrim) = some t →
      (t.useFullVideo = false →
        demoStartTime cfg = t.startTime ∧ demoDuration cfg mdur = t.endTime - t.startTime) ∧
      (t.useFullVideo = true → demoStartTime cfg = 0 ∧ demoDuration cfg mdur = mdur)) ∧
    (cfg.bind (·.demoTrim) = none → demoStartTime cfg = 0 ∧ demoDuration cfg mdur = mdur) := by
  refine ⟨?_, ?_, ?_, ?_⟩
  · intro t ht
    constructor <;> intro hf <;>
      simp [hookStartTime, hookDuration, ht, hf]
  · intro ht
    simp [hookStartTime, hookDuration, ht]
  · intro t ht
    constructor <;> intro hf <;>
      simp [demoStartTime, demoDuration, ht, hf]
  · intro ht
    simp [demoStartTime, demoDuration, ht]

/-- C3 witness: with a hook trim 2 to 7 and a full-clip demo trim, the resolved
values are start 2, duration 5, and the probed demo duration. -/
theorem timing_resolution_witness :
    hookStartTime timingConfig = 2 ∧ hookDuration timingConfig 10 = 7 - 2 ∧
    demoStartTime timingConfig = 0 ∧ demoDuration timingConfig 8 = 8 := by
  obtain ⟨h1, _, h3, _⟩ := timing_resolution timingConfig 10 8
  exact ⟨((h1 _ rfl).1 rfl).1, ((h1 _ rfl).1 rfl).2,
    ((h3 _ rfl).2 rfl).1, ((h3 _ rfl).2 rfl).2⟩

/-- C4: the frame count used by every animated effect fragment is the clamp
max(floor(duration times 30), 30), hence always at least 30 frames, for the
hook and the demo side alike. -/
theorem effect_frames_clamped (cfg : Option JobConfig) (idur mdur : ℚ) :
    effectFrameCount (hookFrames cfg idur) = max ⌊hookDuration cfg idur * 30⌋ 30 ∧
    30 ≤ effectFrameCount (hookFrames cfg idur) ∧
    effectFrameCount (demoFrames cfg mdur) = max ⌊demoDuration cfg mdur * 30⌋ 30 ∧
    30 ≤ effectFrameCount (demoFrames cfg mdur) :=
  ⟨rfl, le_max_right _ _, rfl, le_max_right _ _⟩

/-- C5: the blend offset equals max(0, hookDuration minus durationMs/1000), is
never negative, is 0 whenever the transition duration exceeds the hook
duration, and the non-cut fragment is emitted rather than rejected. -/
theorem transition_offset_law (t : Transition) (hd : ℚ) (h : 0 ≤ hd) :
    transitionOffset t hd = max 0 (hd - t.duration / 1000) ∧
    0 ≤ transitionOffset t hd ∧
    (hd < t.duration / 1000 → transitionOffset t hd = 0) ∧
    (t.type ≠ .cut → buildTransitionFilter t hd ≠ "") := by
  refine ⟨rfl, le_max_left _ _, ?_, ?_⟩
  · intro hlt
    unfold transitionOffset
    apply max_eq_left
    linarith
  · intro hcut
    unfold buildTransitionFilter
    cases htype : t.type
    · exact absurd htype hcut
    · exact append_ne_empty _ _ (data_ne_nil_append _ _ (data_ne_nil_append _ _ (by decide)))
    · exact append_ne_empty _ _ (data_ne_nil_append _ _ (data_ne_nil_append _ _ (by decide)))
    · exact append_ne_empty _ _ (data_ne_nil_append _ _ (data_ne_nil_append _ _ (by decide)))

/-- C5 witness: a 2000 millisecond crossfade over a 1 second hook has offset 0
and still emits its fragment. -/
theorem transition_offset_law_witness :
    transitionOffset witTransition 1 = max 0 (1 - witTransition.duration / 1000) ∧
    0 ≤ transitionOffset witTransition 1 ∧
    ((1 : ℚ) < witTransition.duration / 1000 → transitionOffset witTransition 1 = 0) ∧
    (witTransition.type ≠ .cut → buildTransitionFilter witTransition 1 ≠ "") :=
  transition_offset_law witTransition 1 (by norm_num)

/-- C6: the punch-zoom z expression is continuous at the junction frame: the
linear ramp evaluated at frame floor(0.2 d) equals exactly the target
1 + 0.2 times the intensity multiplier, the value held by the expression at
that frame and at every later frame. -/
theorem punch_zoom_continuous (i : Intensity) (df : ℤ) :
    punchRamp i (effectFrameCount df) (punchFrames (effectFrameCount df)) = punchZoomTarget i ∧
    punchZoomExpr i (effectFrameCount df) (punchFrames (effectFrameCount df)) = punchZoomTarget i ∧
    ∀ onIdx : ℤ, punchFrames (effectFrameCount df) ≤ onIdx →
      punchZoomExpr i (effectFrameCount df) onIdx = punchZoomTarget i := by
  have hpos : (0 : ℤ) < punchFrames (effectFrameCount df) := by
    have := punchFrames_pos df
    omega
  have hne : ((punchFrames (effectFrameCount df) : ℤ) : ℚ) ≠ 0 := by
    exact_mod_cast hpos.ne'
  refine ⟨?_, ?_, ?_⟩
  · unfold punchRamp punchIncrement
    field_simp
  · unfold punchZoomExpr
    rw [if_neg (lt_irrefl _)]
  · intro onIdx honIdx
    unfold punchZoomExpr
    rw [if_neg (not_lt.mpr honIdx)]

/-- C6 witness: for medium intensity and 90 frames the junction value and the
held value at frame 20 both equal the target zoom. -/
theorem punch_zoom_continuous_witness :
    punchRamp .medium (effectFrameCount 90) (punchFrames (effectFrameCount 90))
      = punchZoomTarget .medium ∧
    punchZoomExpr .medium (effectFrameCount 90) 20 = punchZoomTarget .medium :=
  ⟨(punch_zoom_continuous .medium 90).1,
    (punch_zoom_continuous .medium 90).2.2 20
      (by rw [show effectFrameCount 90 = 90 from rfl]; norm_num [punchFrames])⟩

/-- C7: under audio policy hook the combine-audio stage is exactly one fragment
taking pad a0 and padding it with trailing silence to the whole duration
hookDuration + demoDuration, declaring outa. -/
theorem hook_audio_padded (cfg : Option JobConfig) (idur mdur : ℚ)
    (h : effectiveAudioSource cfg = .hook) :
    combineAudioFilters cfg (hookDuration cfg idur) (demoDuration cfg mdur)
      = [⟨["a0"],
          "apad=whole_dur=" ++ toString (hookDuration cfg idur + demoDuration cfg mdur),
          ["outa"]⟩] := by
  unfold combineAudioFilters
  rw [h]

/-- C7 witness: the explicit hook policy configuration with probed durations 3
and 4 pads to the whole duration 3 + 4. -/
theorem hook_audio_padded_witness :
    effectiveAudioSource hookPolicyConfig = .hook ∧
    combineAudioFilters hookPolicyConfig (hookDuration hookPolicyConfig 3)
        (demoDuration hookPolicyConfig 4)
      = [⟨["a0"],
          "apad=whole_dur="
            ++ toString (hookDuration hookPolicyConfig 3 + demoDuration hookPolicyConfig 4),
          ["outa"]⟩] :=
  ⟨rfl, hook_audio_padded hookPolicyConfig 3 4 rfl⟩

/-- C8: the escaped overlay text is produced by the ordered substitution chain
backslash, quote, colon, brackets, and that chain equals one simultaneous
per-character substitution, so later passes never re-escape characters
introduced by earlier ones. -/
theorem escape_order_no_reescape (s : String) (h : s ≠ "") :
    escapedText s = String.mk ((s.data.map escapeCharSpec).flatten) := by
  unfold escapedText
  congr 1
  induction s.data with
  | nil => rfl
  | cons x xs ih =>
      rw [show x :: xs = [x] ++ xs from rfl, escapeFilterText_append,
        escapeFilterText_single]
      simp [ih]

/-- C8 witness: a concrete text containing a colon and brackets. -/
theorem escape_order_witness :
    ("a:[b]" : String) ≠ "" ∧
    escapedText "a:[b]" = String.mk ((("a:[b]" : String).data.map escapeCharSpec).flatten) :=
  ⟨by decide, escape_order_no_reescape "a:[b]" (by decide)⟩

/-- C9: the graph assembler composed with the spec-described defensive
invariant check succeeds on every configuration: the check never fires because
every assembled program has all declared pads used and all referenced pads
declared, so the unchecked source assembler and the checked one agree
everywhere. -/
theorem graph_check_never_fires (cfg : Option JobConfig) (text : Option String)
    (idur mdur : ℚ) (ihs mhs : Bool) :
    checkedAssemble cfg text idur mdur ihs mhs
      = Except.ok (filterParts cfg text idur mdur ihs mhs) := by
  have h := (graphInvariants cfg text idur mdur ihs mhs).2
  unfold checkedAssemble
  simp [h]

/-- C10: when the configuration omits the audio policy the compiler behaves
exactly as if the policy were hook: same argument vector, a hook audio pad is
emitted, the combine stage pads it to hookDuration + demoDuration, and an audio
output is mapped. -/
theorem audio_defaults_to_hook (p1 p2 p3 : String) (text : Option String)
    (cfg : Option JobConfig) (idur mdur : ℚ) (ihs mhs : Bool)
    (h : cfg.bind (·.audioSource) = none) :
    effectiveAudioSource cfg = .hook ∧
    buildFFmpegArgs p1 p2 p3 text cfg idur mdur ihs mhs
      = buildFFmpegArgs p1 p2 p3 text (setAudioSourceHook cfg) idur mdur ihs mhs ∧
    audioFilters cfg idur mdur ihs mhs = [hookAudioFilter cfg idur ihs] ∧
    combineAudioFilters cfg (hookDuration cfg idur) (demoDuration cfg mdur)
      = [⟨["a0"],
          "apad=whole_dur=" ++ toString (hookDuration cfg idur + demoDuration cfg mdur),
          ["outa"]⟩] ∧
    outputMapPads cfg = ["outv", "outa"] := by
  rcases cfg with _ | ⟨ht, dt, tr, he, de, ts, tp, as⟩
  · exact ⟨rfl, rfl, rfl, rfl, rfl⟩
  · rcases as with _ | a
    · exact ⟨rfl, rfl, rfl, rfl, rfl⟩
    · exact absurd h (by simp)

/-- C10 witness: the absent configuration compiles identically to the explicit
hook policy. -/
theorem audio_defaults_witness :
    (Option.none : Option JobConfig).bind (·.audioSource) = Option.none ∧
    effectiveAudioSource Option.none = .hook ∧
    buildFFmpegArgs "a" "b" "c" Option.none Option.none 5 6 true true
      = buildFFmpegArgs "a" "b" "c" Option.none (setAudioSourceHook Option.none) 5 6 true true := by
  have h := audio_defaults_to_hook "a" "b" "c" Option.none Option.none 5 6 true true rfl
  exact ⟨rfl, h.1, h.2.1⟩

end Hookly
